import Mathlib

/-!
Shallow embedding of the service-health / retry / fallback utilities of the
estate-flow repository (module `service-health`, plus the service-status
aggregation route), together with theorems settling the specification claims.

JavaScript strings are modelled as Lean `String`; `message.includes(p)` is
modelled as the executable substring test `strIncludes`; JS `Map` state is
modelled as a function `String → Option _`.  Timers, console logging and the
actual network are not modelled: each network attempt's outcome is an explicit
parameter of the embedding.
-/

namespace EstateFlow

/-- `needle.isPrefixOf`-based substring search over character lists:
`true` iff `needle` occurs contiguously in `hay`. -/
def subOccurs (needle : List Char) : List Char → Bool
  | [] => needle.isEmpty
  | c :: t => needle.isPrefixOf (c :: t) || subOccurs needle t

/-- Model of JavaScript `hay.includes(pat)` (case-sensitive substring test). -/
def strIncludes (hay pat : String) : Bool :=
  subOccurs pat.data hay.data

/-- `ErrorCategory` from `service-health`: five independent boolean flags. -/
structure ErrorCategory where
  isScrapingError : Bool
  isTimeoutError : Bool
  isServiceError : Bool
  isAIError : Bool
  isNetworkError : Bool
deriving DecidableEq, Repr

/-- Embedding of `categorizeError(errorMessage, errorName?)`.  The optional
`errorName` is `Option String`. -/
def categorizeError (errorMessage : String) (errorName : Option String := none) :
    ErrorCategory where
  isScrapingError :=
    strIncludes errorMessage "Web scraping service unavailable" ||
    strIncludes errorMessage "Unable to scrape" ||
    strIncludes errorMessage "Real estate sites often block automated access"
  isTimeoutError :=
    strIncludes errorMessage "timeout" || errorName == some "AbortError"
  isServiceError :=
    strIncludes errorMessage "Service Unavailable" ||
    strIncludes errorMessage "temporarily unavailable" ||
    strIncludes errorMessage "quota" ||
    strIncludes errorMessage "billing"
  isAIError :=
    strIncludes errorMessage "OpenAI" || strIncludes errorMessage "AI service"
  isNetworkError :=
    errorName == some "TypeError" && strIncludes errorMessage "fetch"

/-- Embedding of `getUserFriendlyMessage(category)`. -/
def getUserFriendlyMessage (category : ErrorCategory) : String :=
  if category.isScrapingError then
    "The web scraping service is currently unavailable. This often happens when real estate websites block automated access. Please paste your property description manually below, or try again in a few minutes."
  else if category.isTimeoutError then
    "The request timed out. The website might be slow or blocking access. Please paste your property description manually, or try a different URL."
  else if category.isServiceError then
    "Service quota exceeded or temporarily unavailable. Please try again later or paste your property description manually."
  else if category.isAIError then
    "AI service is temporarily unavailable. Please paste your property description manually, and we\x27ll generate content using our fallback system."
  else if category.isNetworkError then
    "Network connection issue. Please check your internet connection and try again, or paste your property description manually."
  else
    "AI content generation service is temporarily unavailable. Please paste your property description manually below, or try again in a few minutes."

/-- Embedding of `getRetryAdvice(category)`. -/
def getRetryAdvice (category : ErrorCategory) : String :=
  if category.isScrapingError then
    "Scraping errors are typically not retryable. Try manual input instead."
  else if category.isTimeoutError then
    "Timeout errors may be retryable. Check your connection and try again."
  else if category.isServiceError then
    "Service errors are often temporary. Retry in a few minutes."
  else if category.isAIError then
    "AI service errors may require quota check or API key verification."
  else if category.isNetworkError then
    "Network errors are usually retryable once connection is restored."
  else
    "Unknown error type. Manual retry recommended."

/-- Embedding of `isRetryableCategory(category)`. -/
def isRetryableCategory (category : ErrorCategory) : Bool :=
  category.isScrapingError || category.isTimeoutError ||
  category.isServiceError || category.isNetworkError

/-- Embedding of `getNextSteps(category)`: starts from an empty array and
conditionally pushes each flag's step block, in source order. -/
def getNextSteps (category : ErrorCategory) : List String :=
  let steps : List String := []
  let steps := if category.isScrapingError then steps ++
    ["Try manual input instead of URL scraping",
     "Check if the website allows automated access",
     "Try again in a few minutes"] else steps
  let steps := if category.isTimeoutError then steps ++
    ["Check your internet connection",
     "Try again with a shorter timeout",
     "Contact support if issue persists"] else steps
  let steps := if category.isServiceError then steps ++
    ["Check service status page",
     "Try again in a few minutes",
     "Use fallback content generation"] else steps
  let steps := if category.isAIError then steps ++
    ["Check AI service quota",
     "Verify API key configuration",
     "Contact support for quota issues"] else steps
  let steps := if category.isNetworkError then steps ++
    ["Check internet connection",
     "Try refreshing the page",
     "Check firewall settings"] else steps
  steps

/-- Embedding of `calculateBackoffDelay(retryCount, baseDelay = 1000)`,
`Math.pow(2, retryCount) * baseDelay` read over naturals. -/
def calculateBackoffDelay (retryCount : Nat) (baseDelay : Nat := 1000) : Nat :=
  2 ^ retryCount * baseDelay

/-- JavaScript `Response.ok`: status in the range 200–299. -/
def respOk (status : Nat) : Bool :=
  200 ≤ status && status < 300

/-- Embedding of `isRetryableError(response, errorData)`: status ≥ 500, or 429,
or the stringified `errorData.error` contains "timeout" or "unavailable".
`errText` models `String(errorData?.error || '')`; a missing or falsy `error`
field is the empty string. -/
def isRetryableError (status : Nat) (errText : String) : Bool :=
  500 ≤ status || status == 429 ||
  strIncludes errText "timeout" || strIncludes errText "unavailable"

/-- The generic error message `Request failed with status <code>`. -/
def statusMsg (status : Nat) : String :=
  "Request failed with status " ++ toString status

/-- Outcome of one `fetch` attempt inside `retryWithBackoff`:
either the promise resolves to a response (carrying its HTTP status and the
stringified `error` field of its parsed body, `""` when absent), or it rejects
with a thrown value (its `instanceof TypeError` / `instanceof DOMException`
classification, its `name`, and its `message`). -/
inductive FetchOutcome where
  | response (status : Nat) (errText : String)
  | thrown (isTypeError isDOMException : Bool) (name msg : String)
deriving DecidableEq, Repr

/-- Result of `retryWithBackoff`: the returned response's status, or the
message of the error it throws. -/
inductive RetryResult where
  | success (status : Nat)
  | failure (msg : String)
deriving DecidableEq, Repr

/-- The retry condition of the `catch` block of `retryWithBackoff`:
`error instanceof TypeError || error instanceof DOMException ||
(error instanceof Error && (name === 'AbortError' ||
message.includes('timeout') || message.includes('network')))`. -/
def catchRetryable (isTypeError isDOMException : Bool) (name msg : String) : Bool :=
  isTypeError || isDOMException || name == "AbortError" ||
  strIncludes msg "timeout" || strIncludes msg "network"

/-- The `for (let attempt = 0; attempt <= maxRetries; attempt++)` loop of
`retryWithBackoff`, with `remaining = maxRetries - attempt` (so
`attempt < maxRetries` is `0 < remaining`).  `outcomes i` is the result of the
`fetch` call of attempt `i`.  Returns the number of fetch attempts performed
together with the overall result; backoff sleeps are not modelled.

Control flow of the source, traced per attempt with `0 < remaining`:
* resolved `response.ok` ⇒ `return response`;
* resolved non-ok, `isRetryableError` ⇒ sleep and `continue`;
* resolved non-ok, not retryable ⇒ `throw new Error(errorData.error || ...)`
  — but this `throw` sits inside the same `try`, so the loop's own `catch`
  receives it: if `catchRetryable` holds for the synthesized message it sleeps
  and continues, and otherwise, because the `catch` only `break`s when
  `attempt === maxRetries`, the loop falls through and continues anyway;
* rejected ⇒ `catch` with the thrown error: `catchRetryable` ⇒ sleep and
  continue; otherwise fall through and continue as above.
Hence with `0 < remaining` every non-ok outcome leads to the next attempt.
With `remaining = 0` the same paths reach the `catch` with no retry budget,
set `lastError`, `break`, and the function throws `lastError`. -/
def retryLoop (outcomes : Nat → FetchOutcome) : Nat → Nat → Nat × RetryResult
  | 0, i =>
    match outcomes i with
    | .response status errText =>
      if respOk status then (1, .success status)
      else (1, .failure (if errText = "" then statusMsg status else errText))
    | .thrown _ _ _ msg => (1, .failure msg)
  | r + 1, i =>
    match outcomes i with
    | .response status errText =>
      if respOk status then (1, .success status)
      else
        let next := retryLoop outcomes r (i + 1)
        if isRetryableError status errText then
          (next.1 + 1, next.2)
        else if catchRetryable false false "Error"
            (if errText = "" then statusMsg status else errText) then
          (next.1 + 1, next.2)
        else
          (next.1 + 1, next.2)
    | .thrown te de name msg =>
      let next := retryLoop outcomes r (i + 1)
      if catchRetryable te de name msg then (next.1 + 1, next.2)
      else (next.1 + 1, next.2)

/-- Embedding of `retryWithBackoff(url, options, maxRetries = 3, baseDelay)`:
runs the attempt loop starting at attempt 0 with `maxRetries` retries left.
`url`, `options` and `baseDelay` influence only the abstracted `fetch`
outcomes and the sleep lengths, neither of which affects the attempt count or
the result. -/
def retryWithBackoff (outcomes : Nat → FetchOutcome) (maxRetries : Nat := 3) :
    Nat × RetryResult :=
  retryLoop outcomes maxRetries 0

/-- Model of JavaScript `s.substring(0, n)`: the first `n` characters. -/
def jsSubstring (s : String) (n : Nat) : String :=
  ⟨s.data.take n⟩

/-- JavaScript `s.length` (character count; identical for the ASCII/BMP
literals involved here). -/
def jsLength (s : String) : Nat :=
  s.data.length

/-- The recurring template idiom
`input.substring(0, n) + (input.length > n ? '...' : '')`. -/
def excerpt (input : String) (n : Nat) : String :=
  jsSubstring input n ++ (if n < jsLength input then "..." else "")

/-- The `ContentBundle` produced by `generateFallbackContent` on the
`'social'` path (the object literal `fallbackData`). -/
structure ContentBundle where
  property_title : String
  property_summary : String
  instagram : String
  linkedin : String
  tiktok : String
  mls_description : String
  email_blast : String
  marketing_headline : String
  features : List String
deriving DecidableEq, Repr

/-- Embedding of `generateFallbackContent(input, 'social')` — the
`fallbackData` object returned on the default `'social'` path.  (The
`'listing'` branch returns this record extended and overridden with
listing-only fields; no claim here concerns it.) -/
def generateFallbackContent (input : String) : ContentBundle where
  property_title := "Property Listing"
  property_summary := excerpt input 200
  instagram :=
    "🏡 Check out this amazing property! " ++ excerpt input 150 ++
    " Don\x27t miss this opportunity! #RealEstate #DreamHome #JustListed"
  linkedin :=
    "Excited to share this property opportunity: " ++ excerpt input 150 ++
    " Contact me for more details and market insights. #RealEstate #PropertyInvestment"
  tiktok :=
    "🎥 Hook: Check out this incredible property! 🏡 Body: " ++ excerpt input 100 ++
    " CTA: DM me for a private showing! 📲"
  mls_description := excerpt input 300
  email_blast :=
    "Subject: 🏡 New Listing Alert\n\nHi [Client Name],\n\nI wanted to share this exciting new listing with you!\n\n" ++
    excerpt input 200 ++
    "\n\nThis property offers exceptional value and is perfect for discerning buyers. Don\x27t miss this opportunity!\n\nBest regards,\n[Your Name]"
  marketing_headline := "Stunning Property with Exceptional Features"
  features := ["Beautiful Property", "Prime Location", "Excellent Features"]

/-- Embedding of `checkServiceHealth(endpoint, timeout)`: the probe either
resolves with an HTTP status (`Except.ok`) or throws (`Except.error`); the
function returns `response.ok` and converts every thrown error to `false`. -/
def checkServiceHealth (probe : Except String Nat) : Bool :=
  match probe with
  | .ok status => respOk status
  | .error _ => false

/-- One entry of `ServiceStatusTracker.status`:
`{ isHealthy, lastChecked, responseTime? }`.  Timestamps are naturals. -/
structure ServiceEntry where
  isHealthy : Bool
  lastChecked : Nat
  responseTime : Option Nat
deriving DecidableEq, Repr

/-- The tracker's `Map<string, ServiceEntry>`, modelled by lookup. -/
def TrackerState := String → Option ServiceEntry

/-- Embedding of `ServiceStatusTracker.checkService(name, endpoint, timeout)`:
probes the endpoint via `checkServiceHealth` and overwrites the entry for
`name` with the outcome, `lastChecked = endTime` and
`responseTime = endTime - startTime`.  `probe` abstracts the network call,
`startTime`/`endTime` the two `Date.now()` readings around it. -/
def checkService (tracker : TrackerState) (name : String)
    (probe : Except String Nat) (startTime endTime : Nat) : TrackerState :=
  fun n =>
    if n = name then
      some ⟨checkServiceHealth probe, endTime, some (endTime - startTime)⟩
    else tracker n

/-- Status string of one probed service in the service-status route:
`'healthy'` when the fetch resolved ok, `'unhealthy'` when it resolved non-ok,
`'error'` when the probe threw. -/
inductive ProbeStatus where
  | healthy
  | unhealthy
  | error
deriving DecidableEq, Repr

/-- The status the route records for one service from its probe outcome. -/
def probeStatus (probe : Except String Nat) : ProbeStatus :=
  match probe with
  | .ok status => if respOk status then .healthy else .unhealthy
  | .error _ => .error

/-- `results.filter(r => r.status === 'healthy').length`. -/
def healthyCount (results : List ProbeStatus) : Nat :=
  (results.filter (fun r => r = ProbeStatus.healthy)).length

/-- The route's overall-health classification:
`healthyServices === totalServices ? 'healthy' :
 healthyServices > totalServices / 2 ? 'degraded' : 'unhealthy'`,
with the JS division read exactly over the rationals. -/
def overallHealth (results : List ProbeStatus) : String :=
  if healthyCount results = results.length then "healthy"
  else if ((results.length : ℚ) / 2 < (healthyCount results : ℚ)) then "degraded"
  else "unhealthy"

/-- The route's uptime percentage `(healthyServices / totalServices) * 100`
(the value before `toFixed(1)` formatting), over the rationals. -/
def uptimePercent (results : List ProbeStatus) : ℚ :=
  ((healthyCount results : ℚ) / (results.length : ℚ)) * 100

/-! ## Helper lemmas -/

/-- A string is `""` exactly when its character list is empty. -/
theorem string_eq_empty_iff {s : String} : s = "" ↔ s.data = [] := by
  constructor
  · intro h; rw [h]
  · intro h; cases s; simp_all

/-- Appending to a non-empty string stays non-empty. -/
theorem append_ne_empty_left {a : String} (b : String) (h : a ≠ "") :
    a ++ b ≠ "" := by
  intro hcontra
  rw [string_eq_empty_iff, String.data_append, List.append_eq_nil] at hcontra
  exact h (string_eq_empty_iff.mpr hcontra.1)

/-- Taking a positive number of characters of a non-empty list is non-empty. -/
theorem take_pos_ne_nil {l : List Char} (h : l ≠ []) {n : Nat} (hn : 0 < n) :
    l.take n ≠ [] := by
  cases l with
  | nil => exact absurd rfl h
  | cons c t =>
    cases n with
    | zero => exact absurd hn (by omega)
    | succ m => simp [List.take]

/-- `jsSubstring` of a non-empty string with a positive bound is non-empty. -/
theorem jsSubstring_ne_empty {input : String} (h : input ≠ "") {n : Nat}
    (hn : 0 < n) : jsSubstring input n ≠ "" := by
  intro hcontra
  rw [string_eq_empty_iff] at hcontra
  exact take_pos_ne_nil (fun hd => h (string_eq_empty_iff.mpr hd)) hn hcontra

/-- `excerpt` of a non-empty string with a positive bound is non-empty. -/
theorem excerpt_ne_empty {input : String} (h : input ≠ "") {n : Nat}
    (hn : 0 < n) : excerpt input n ≠ "" :=
  append_ne_empty_left _ (jsSubstring_ne_empty h hn)

/-- Attempt-count/result of the retry loop when every attempt resolves to an
HTTP 503 whose parsed body carries error text `errs j` at attempt `j`:
`r + 1` attempts from `r` remaining retries, failing with the final body's
message (or the generic status message when that text is empty). -/
theorem retryLoop_const503 (errs : Nat → String) :
    ∀ r i : Nat, retryLoop (fun j => FetchOutcome.response 503 (errs j)) r i =
      (r + 1, RetryResult.failure
        (if errs (i + r) = "" then statusMsg 503 else errs (i + r))) := by
  intro r
  induction r with
  | zero =>
    intro i
    simp [retryLoop, respOk]
  | succ n ih =>
    intro i
    have h503 : isRetryableError 503 (errs i) = true := by
      simp [isRetryableError]
    simp only [retryLoop, respOk, h503]
    rw [ih (i + 1)]
    have : i + 1 + n = i + (n + 1) := by omega
    simp [this]

/-! ## Claims -/

/-- C1: the claim says `retryWithBackoff(url, options, 3, baseDelay)` against
a first-attempt HTTP 400 whose body text contains neither "timeout" nor
"unavailable" fails after exactly 1 fetch attempt.  The code does not: the
non-retryable `throw` is caught by the loop's own `catch`, which only breaks
at `attempt === maxRetries`, so with every attempt answering 400 / body
`{error: "Bad Request"}` the code performs 4 fetch attempts before throwing
the parsed message. -/
theorem retry_http400_four_attempts :
    isRetryableError 400 "Bad Request" = false ∧
    strIncludes "Bad Request" "timeout" = false ∧
    strIncludes "Bad Request" "unavailable" = false ∧
    retryWithBackoff (fun _ => FetchOutcome.response 400 "Bad Request") 3 =
      (4, RetryResult.failure "Bad Request") := by
  decide

/-- C2: when every fetch attempt resolves to HTTP 503 with a parseable error
body whose error text is non-empty, `retryWithBackoff` performs exactly
`maxRetries + 1` fetch attempts (4 when `maxRetries = 3`) and then throws an
error whose message is the final response's parsed error text. -/
theorem retry_always503_attempts (maxRetries : Nat) (errs : Nat → String)
    (h : errs maxRetries ≠ "") :
    retryWithBackoff (fun j => FetchOutcome.response 503 (errs j)) maxRetries =
      (maxRetries + 1, RetryResult.failure (errs maxRetries)) := by
  unfold retryWithBackoff
  rw [retryLoop_const503]
  simp [h]

/-- Witness for C2: with `maxRetries = 3` and every attempt answering 503 /
body `{error: "Service Unavailable"}`, exactly 4 attempts are made and the
thrown message is "Service Unavailable". -/
theorem retry_always503_attempts_witness :
    retryWithBackoff
        (fun j => FetchOutcome.response 503
          ((fun _ => "Service Unavailable") j)) 3 =
      (4, RetryResult.failure "Service Unavailable") :=
  retry_always503_attempts 3 (fun _ => "Service Unavailable") (by decide)

/-- C5 counterexample: the message "block automated access" contains the
substring "block automated access", yet `categorizeError` leaves
`isScrapingError` false — the code only matches the longer literal
"Real estate sites often block automated access". -/
theorem categorize_block_access_counterexample :
    strIncludes "block automated access" "block automated access" = true ∧
    (categorizeError "block automated access" none).isScrapingError = false := by
  decide

/-- C5 amended: for every message containing the code's full phrase
"Real estate sites often block automated access" (and any optional error
name), `categorizeError` sets `isScrapingError = true`. -/
theorem categorize_full_phrase_scraping (msg : String) (name : Option String)
    (h : strIncludes msg "Real estate sites often block automated access" = true) :
    (categorizeError msg name).isScrapingError = true := by
  simp [categorizeError, h]

/-- Witness for the amended C5 at the concrete phrase itself. -/
theorem categorize_full_phrase_scraping_witness :
    (categorizeError "Real estate sites often block automated access" none).isScrapingError
      = true :=
  categorize_full_phrase_scraping _ none (by decide)

/-- C6: `calculateBackoffDelay(retryCount, base)` equals
`2 ^ retryCount * base` for every retry count and base delay; in particular
`calculateBackoffDelay 0 1000 = 1000` and `calculateBackoffDelay 3 1000 =
8000`. -/
theorem calculateBackoffDelay_spec :
    (∀ retryCount baseDelay : Nat,
      calculateBackoffDelay retryCount baseDelay = 2 ^ retryCount * baseDelay) ∧
    calculateBackoffDelay 0 1000 = 1000 ∧ calculateBackoffDelay 3 1000 = 8000 :=
  ⟨fun _ _ => rfl, rfl, rfl⟩

/-- C7: `isRetryableCategory` is true exactly when one of the scraping,
timeout, service or network flags is set; a category with only `isAIError`
true is not retryable. -/
theorem isRetryableCategory_spec :
    (∀ c : ErrorCategory,
      isRetryableCategory c = true ↔
        (c.isScrapingError = true ∨ c.isTimeoutError = true ∨
         c.isServiceError = true ∨ c.isNetworkError = true)) ∧
    isRetryableCategory ⟨false, false, false, true, false⟩ = false := by
  constructor
  · intro c
    simp [isRetryableCategory, Bool.or_eq_true, or_assoc]
  · decide

/-- C10: for the all-false (unknown) category, `getNextSteps` returns the
empty list while `getUserFriendlyMessage` and `getRetryAdvice` return their
non-empty generic fallback strings. -/
theorem unknown_category_outputs :
    getNextSteps ⟨false, false, false, false, false⟩ = [] ∧
    getUserFriendlyMessage ⟨false, false, false, false, false⟩ =
      "AI content generation service is temporarily unavailable. Please paste your property description manually below, or try again in a few minutes." ∧
    getUserFriendlyMessage ⟨false, false, false, false, false⟩ ≠ "" ∧
    getRetryAdvice ⟨false, false, false, false, false⟩ =
      "Unknown error type. Manual retry recommended." ∧
    getRetryAdvice ⟨false, false, false, false, false⟩ ≠ "" := by
  decide

/-- C3 counterexample: for the empty input, `generateFallbackContent` yields
an empty `property_summary` and an empty `mls_description` — those two fields
are bare excerpts with no surrounding template text, so the claim that every
string field is non-empty for `""` is false. -/
theorem generateFallback_empty_fields_counterexample :
    (generateFallbackContent "").property_summary = "" ∧
    (generateFallbackContent "").mls_description = "" := by
  decide

/-- C3 amended: for every input, the template-backed fields
(`property_title`, `instagram`, `linkedin`, `tiktok`, `email_blast`,
`marketing_headline`) are non-empty and `features` equals exactly
`["Beautiful Property", "Prime Location", "Excellent Features"]`;
`property_summary` and `mls_description` are bare excerpts of the input and
are non-empty whenever the input is non-empty. -/
theorem generateFallback_nonempty_fields (input : String) :
    (generateFallbackContent input).property_title ≠ "" ∧
    (generateFallbackContent input).instagram ≠ "" ∧
    (generateFallbackContent input).linkedin ≠ "" ∧
    (generateFallbackContent input).tiktok ≠ "" ∧
    (generateFallbackContent input).email_blast ≠ "" ∧
    (generateFallbackContent input).marketing_headline ≠ "" ∧
    (generateFallbackContent input).features =
      ["Beautiful Property", "Prime Location", "Excellent Features"] ∧
    (input ≠ "" →
      (generateFallbackContent input).property_summary ≠ "" ∧
      (generateFallbackContent input).mls_description ≠ "") := by
  refine ⟨(by decide : ("Property Listing" : String) ≠ ""), ?_, ?_, ?_, ?_,
    (by decide : ("Stunning Property with Exceptional Features" : String) ≠ ""),
    rfl, ?_⟩
  · exact append_ne_empty_left _ (append_ne_empty_left _ (by decide))
  · exact append_ne_empty_left _ (append_ne_empty_left _ (by decide))
  · exact append_ne_empty_left _ (append_ne_empty_left _ (by decide))
  · exact append_ne_empty_left _ (append_ne_empty_left _ (by decide))
  · intro h
    exact ⟨excerpt_ne_empty h (by omega), excerpt_ne_empty h (by omega)⟩

/-- Witness for the amended C3: at the concrete input "Cozy cottage", the
excerpt-backed fields are non-empty too. -/
theorem generateFallback_nonempty_fields_witness :
    (generateFallbackContent "Cozy cottage").property_summary ≠ "" ∧
    (generateFallbackContent "Cozy cottage").mls_description ≠ "" :=
  (generateFallback_nonempty_fields "Cozy cottage").2.2.2.2.2.2.2 (by decide)

/-- C4 counterexample: for a category with both `isScrapingError` and
`isTimeoutError` set, `getNextSteps` does NOT return only the scraping
steps — it also appends the timeout steps, so first-match-wins fails. -/
theorem getNextSteps_not_first_match :
    getNextSteps ⟨true, true, false, false, false⟩ ≠
      ["Try manual input instead of URL scraping",
       "Check if the website allows automated access",
       "Try again in a few minutes"] := by
  decide

/-- The amended description of `getNextSteps`: it concatenates, in the fixed
order scraping → timeout → service → AI → network, the step block of every
flag that is true (not just the first). -/
def getNextStepsSpec (category : ErrorCategory) : List String :=
  (if category.isScrapingError then
    ["Try manual input instead of URL scraping",
     "Check if the website allows automated access",
     "Try again in a few minutes"] else []) ++
  (if category.isTimeoutError then
    ["Check your internet connection",
     "Try again with a shorter timeout",
     "Contact support if issue persists"] else []) ++
  (if category.isServiceError then
    ["Check service status page",
     "Try again in a few minutes",
     "Use fallback content generation"] else []) ++
  (if category.isAIError then
    ["Check AI service quota",
     "Verify API key configuration",
     "Contact support for quota issues"] else []) ++
  (if category.isNetworkError then
    ["Check internet connection",
     "Try refreshing the page",
     "Check firewall settings"] else [])

/-- C4 amended: `getNextSteps` equals the concatenation, in the order
scraping → timeout → service → AI → network, of the step lists of all true
flags. -/
theorem getNextSteps_concatenates (category : ErrorCategory) :
    getNextSteps category = getNextStepsSpec category := by
  obtain ⟨a, b, c, d, e⟩ := category
  cases a <;> cases b <;> cases c <;> cases d <;> cases e <;> rfl

/-- C9: after `checkService(name, endpoint, timeout)` — whatever the probe's
outcome (success status, non-success status, or a thrown error) — the
tracker's entry for `name` holds the probe outcome as `isHealthy` with
`lastChecked` and `responseTime` set, and every other name's entry is
unchanged. -/
theorem checkService_frame (tracker : TrackerState) (name : String)
    (probe : Except String Nat) (startTime endTime : Nat) :
    checkService tracker name probe startTime endTime name =
      some ⟨checkServiceHealth probe, endTime, some (endTime - startTime)⟩ ∧
    ∀ other : String, other ≠ name →
      checkService tracker name probe startTime endTime other = tracker other := by
  constructor
  · simp [checkService]
  · intro other h
    simp [checkService, h]

/-- Witness for C9: a fresh tracker after `checkService` for "primary-api"
with a 200-status probe holds a healthy entry for "primary-api" and still no
entry for "fallback-api". -/
theorem checkService_frame_witness :
    checkService (fun _ => none) "primary-api" (Except.ok 200) 0 5 "primary-api" =
      some ⟨true, 5, some 5⟩ ∧
    checkService (fun _ => none) "primary-api" (Except.ok 200) 0 5 "fallback-api" =
      none :=
  ⟨(checkService_frame (fun _ => none) "primary-api" (Except.ok 200) 0 5).1,
   (checkService_frame (fun _ => none) "primary-api" (Except.ok 200) 0 5).2
     "fallback-api" (by decide)⟩

/-- The healthy count equals the total count exactly when every probed
service reports healthy. -/
theorem healthyCount_eq_length_iff (results : List ProbeStatus) :
    healthyCount results = results.length ↔
      ∀ r ∈ results, r = ProbeStatus.healthy := by
  unfold healthyCount
  rw [← List.countP_eq_length_filter, List.countP_eq_length]
  simp

/-- Over the rationals, `t / 2 < h` is the strict majority `t < 2 * h`. -/
theorem half_lt_iff (h t : Nat) : ((t : ℚ) / 2 < (h : ℚ)) ↔ t < 2 * h := by
  rw [div_lt_iff₀ (by norm_num : (0:ℚ) < 2)]
  have hcast : ((h * 2 : Nat) : ℚ) = (h : ℚ) * 2 := by push_cast; ring
  rw [← hcast, Nat.cast_lt]
  omega

/-- C8: the aggregated overall health is "healthy" iff all probed services
report healthy, "degraded" iff not all do but strictly more than half do,
and "unhealthy" otherwise; the uptime percentage is
`(healthy count / total count) * 100`. -/
theorem systemHealth_aggregation (results : List ProbeStatus) :
    (overallHealth results = "healthy" ↔
      ∀ r ∈ results, r = ProbeStatus.healthy) ∧
    (overallHealth results = "degraded" ↔
      (¬ (∀ r ∈ results, r = ProbeStatus.healthy) ∧
        results.length < 2 * healthyCount results)) ∧
    (overallHealth results = "unhealthy" ↔
      (¬ (∀ r ∈ results, r = ProbeStatus.healthy) ∧
        ¬ results.length < 2 * healthyCount results)) ∧
    uptimePercent results =
      ((healthyCount results : ℚ) / (results.length : ℚ)) * 100 := by
  by_cases hA : healthyCount results = results.length
  · have hov : overallHealth results = "healthy" := by
      unfold overallHealth
      rw [if_pos hA]
    have hallT : ∀ r ∈ results, r = ProbeStatus.healthy :=
      (healthyCount_eq_length_iff results).mp hA
    refine ⟨iff_of_true hov hallT, ?_, ?_, rfl⟩
    · exact iff_of_false (by rw [hov]; decide) (fun hc => hc.1 hallT)
    · exact iff_of_false (by rw [hov]; decide) (fun hc => hc.1 hallT)
  · have hnall : ¬ ∀ r ∈ results, r = ProbeStatus.healthy :=
      fun h => hA ((healthyCount_eq_length_iff results).mpr h)
    by_cases hB : ((results.length : ℚ) / 2 < (healthyCount results : ℚ))
    · have hov : overallHealth results = "degraded" := by
        unfold overallHealth
        rw [if_neg hA, if_pos hB]
      have hlt : results.length < 2 * healthyCount results :=
        (half_lt_iff (healthyCount results) results.length).mp hB
      refine ⟨iff_of_false (by rw [hov]; decide) (fun h => hnall h),
        iff_of_true hov ⟨hnall, hlt⟩,
        iff_of_false (by rw [hov]; decide) (fun hc => hc.2 hlt), rfl⟩
    · have hov : overallHealth results = "unhealthy" := by
        unfold overallHealth
        rw [if_neg hA, if_neg hB]
      have hnlt : ¬ results.length < 2 * healthyCount results :=
        fun h => hB ((half_lt_iff (healthyCount results) results.length).mpr h)
      refine ⟨iff_of_false (by rw [hov]; decide) (fun h => hnall h),
        iff_of_false (by rw [hov]; decide) (fun hc => hnlt hc.2),
        iff_of_true hov ⟨hnall, hnlt⟩, rfl⟩

end EstateFlow
